import Mathlib

/-!
Verification of the ppg-client core against its natural-language specification.

The definitions below are a shallow embedding of the TypeScript sources:
  - src/transport/shims.ts      (utf8ByteLength, the WebSocket onclose handler)
  - src/transport/frames.ts     (requestFrames and the frame data model)
  - src/transport/query-queue.ts (newQueryQueue / processFrame)
  - src/transport/ndjson.ts     (NDJSON column mapping)
  - src/api/client.ts           (exec / assertRowAffectedResult,
                                 parseConnectionString, default parsers)
  - src/common/types.ts         (toCollectableIterator)
  - src/index.ts                (transaction)

JavaScript strings are modelled as lists of UTF-16 code units, byte arrays as
lists of byte values, streams as lists of chunks, and JSON values as an
inductive type with JavaScript property access returning an Option.
-/

namespace PpgClient

/-! ### Strings and UTF-8 byte length (src/transport/shims.ts, utf8ByteLength) -/

/-- A JavaScript string: a sequence of UTF-16 code units (each below 2^16). -/
abbrev JsString := List Nat

/-- Number of UTF-8 bytes used to encode one Unicode code point, following the
branch ladder of utf8ByteLength in src/transport/shims.ts. -/
def utf8CodePointBytes (codePoint : Nat) : Nat :=
  if codePoint ≤ 0x7f then 1
  else if codePoint ≤ 0x7ff then 2
  else if codePoint ≤ 0xffff then 3
  else 4

/-- Embedding of utf8ByteLength (src/transport/shims.ts lines 75-106): walks the
UTF-16 code units, combining a high surrogate followed by a low surrogate into a
single code point, and sums the per-code-point UTF-8 byte counts.  When a
high surrogate is not followed by a low surrogate, the lone surrogate itself is
counted (it is at most 0xffff, hence three bytes), exactly as in the source. -/
def utf8ByteLength : JsString → Nat
  | [] => 0
  | c :: rest =>
    if 0xd800 ≤ c ∧ c ≤ 0xdbff then
      match rest with
      | [] => utf8CodePointBytes c
      | next :: rest2 =>
        if 0xdc00 ≤ next ∧ next ≤ 0xdfff then
          utf8CodePointBytes (((c - 0xd800) <<< 10) + (next - 0xdc00) + 0x10000)
            + utf8ByteLength rest2
        else
          utf8CodePointBytes c + utf8ByteLength (next :: rest2)
    else
      utf8CodePointBytes c + utf8ByteLength rest

/-! ### Raw parameters (src/common/types.ts) -/

/-- ParameterFormat from src/common/types.ts: the TEXT and BINARY constants. -/
inductive ParamFormat
  | text
  | binary
deriving DecidableEq, Repr

/-- RawParameter from src/common/types.ts: a string, a Uint8Array tagged with a
format (ByteArrayParameter), a ReadableStream of byte chunks tagged with a
format and a declared byteLength (BoundedByteStreamParameter), or null. -/
inductive RawParam
  | str (s : JsString)
  | bytes (data : List Nat) (format : ParamFormat)
  | stream (chunks : List (List Nat)) (format : ParamFormat) (byteLength : Nat)
  | nullParam
deriving DecidableEq, Repr

/-! ### Outbound frames (src/transport/frames.ts) -/

/-- The value carried by an inline parameter descriptor.  The three JavaScript
primitives that produce it in requestFrames are kept symbolic: the original
string, the result of TextDecoder().decode on a byte sequence, and the result
of btoa (standard base64) on a byte sequence. -/
inductive InlineVal
  | fromString (s : JsString)
  | utf8Decoded (data : List Nat)
  | base64 (data : List Nat)
deriving DecidableEq, Repr

/-- A parameter descriptor inside the query descriptor frame: either inline
(type + value, where the value is null for SQL NULL) or extended
(type + byteSize).  Mirrors InlineQueryParameter / ExtendedQueryParameter in
src/transport/frames.ts. -/
inductive QueryParam
  | inline (type : ParamFormat) (value : Option InlineVal)
  | extended (type : ParamFormat) (byteSize : Nat)
deriving DecidableEq, Repr

/-- True exactly on inline descriptors. -/
def QueryParam.isInline : QueryParam → Bool
  | .inline _ _ => true
  | .extended _ _ => false

/-- True exactly on extended descriptors. -/
def QueryParam.isExtended : QueryParam → Bool
  | .inline _ _ => false
  | .extended _ _ => true

/-- The data payload of an extended parameter frame, mirroring the three
values requestFrames stores there: a bounded stream wrapping the UTF-8
encoding of a string (via TextEncoderStream), a byte array, or the original
bounded byte stream. -/
inductive ExtData
  | encodedString (s : JsString) (byteLength : Nat)
  | byteArray (data : List Nat) (format : ParamFormat)
  | byteStream (chunks : List (List Nat)) (format : ParamFormat) (byteLength : Nat)
deriving DecidableEq, Repr

/-- ExtendedParamFrame from src/transport/frames.ts. -/
structure ExtFrame where
  type : ParamFormat
  data : ExtData
deriving DecidableEq, Repr

/-- StatementKind from src/transport/frames.ts. -/
inductive StatementKind
  | query
  | exec
deriving DecidableEq, Repr

/-- QueryDescriptorFrame from src/transport/frames.ts: the statement kind with
its SQL text and the optional parameter descriptor list (absent when there are
zero parameters). -/
structure DescriptorFrame where
  kind : StatementKind
  sql : String
  parameters : Option (List QueryParam)
deriving DecidableEq, Repr

/-- RequestFrame from src/transport/frames.ts. -/
inductive RequestFrame
  | descriptor (d : DescriptorFrame)
  | extParam (f : ExtFrame)
deriving DecidableEq, Repr

/-- The inline threshold EXENDED_PARAM_SIZE_THRESHOLD = 1 << 10 from
src/transport/frames.ts. -/
def extendedParamSizeThreshold : Nat := 1 <<< 10

/-- One iteration of the parameter loop in requestFrames
(src/transport/frames.ts lines 155-272): produces the descriptor entry pushed
onto queryParams and, when the parameter is extended, the frame pushed onto
extendedFrames.  The branch structure follows the source: strings use
utf8ByteLength, byte arrays their length, bounded streams their declared
byteLength; small text byte data is decoded, small binary byte data is
base64-encoded, small bounded streams are drained (chunks concatenated) first;
null becomes an inline text descriptor with a null value. -/
def encodeParam : RawParam → QueryParam × Option ExtFrame
  | .str s =>
    let byteLength := utf8ByteLength s
    if byteLength ≤ extendedParamSizeThreshold then
      (.inline .text (some (.fromString s)), none)
    else
      (.extended .text byteLength, some ⟨.text, .encodedString s byteLength⟩)
  | .bytes data format =>
    let byteLength := data.length
    if byteLength ≤ extendedParamSizeThreshold then
      match format with
      | .text => (.inline .text (some (.utf8Decoded data)), none)
      | .binary => (.inline .binary (some (.base64 data)), none)
    else
      (.extended format byteLength, some ⟨format, .byteArray data format⟩)
  | .stream chunks format byteLength =>
    if byteLength ≤ extendedParamSizeThreshold then
      match format with
      | .text => (.inline .text (some (.utf8Decoded chunks.flatten)), none)
      | .binary => (.inline .binary (some (.base64 chunks.flatten)), none)
    else
      (.extended format byteLength, some ⟨format, .byteStream chunks format byteLength⟩)
  | .nullParam => (.inline .text none, none)

/-- Embedding of requestFrames (src/transport/frames.ts lines 146-280): the
loop fills queryParams and extendedFrames in parameter order; the returned
frame list is the query descriptor (whose parameters field is omitted when
empty) followed by the extended frames. -/
def requestFrames (kind : StatementKind) (sql : String) (rawParams : List RawParam) :
    List RequestFrame :=
  let queryParams := rawParams.map (fun p => (encodeParam p).1)
  let extendedFrames := rawParams.filterMap (fun p => (encodeParam p).2)
  let parameters := if queryParams.length > 0 then some queryParams else none
  .descriptor ⟨kind, sql, parameters⟩ :: extendedFrames.map .extParam

/-! ### Byte-size measure used by the specification's threshold statement -/

/-- The byte length the specification attributes to a raw parameter: UTF-8
encoded length for strings, byte count for byte arrays, declared byteLength
for bounded streams.  A null parameter carries no payload. -/
def paramByteSize : RawParam → Nat
  | .str s => utf8ByteLength s
  | .bytes data _ => data.length
  | .stream _ _ byteLength => byteLength
  | .nullParam => 0

/-- The wire format of a raw parameter (text for strings and null, the tag
otherwise). -/
def paramFormat : RawParam → ParamFormat
  | .str _ => .text
  | .bytes _ format => format
  | .stream _ format _ => format
  | .nullParam => .text

theorem encodeParam_ext_isSome (p : RawParam) :
    ((encodeParam p).2).isSome = decide (extendedParamSizeThreshold < paramByteSize p) := by
  cases p with
  | str s =>
    by_cases h : utf8ByteLength s ≤ extendedParamSizeThreshold
    · simp [encodeParam, paramByteSize, h, Nat.not_lt.mpr h]
    · simp [encodeParam, paramByteSize, h, Nat.lt_of_not_le h]
  | bytes data format =>
    by_cases h : data.length ≤ extendedParamSizeThreshold
    · cases format <;> simp [encodeParam, paramByteSize, h, Nat.not_lt.mpr h]
    · cases format <;> simp [encodeParam, paramByteSize, h, Nat.lt_of_not_le h]
  | stream chunks format byteLength =>
    by_cases h : byteLength ≤ extendedParamSizeThreshold
    · cases format <;> simp [encodeParam, paramByteSize, h, Nat.not_lt.mpr h]
    · cases format <;> simp [encodeParam, paramByteSize, h, Nat.lt_of_not_le h]
  | nullParam =>
    simp [encodeParam, paramByteSize, extendedParamSizeThreshold]

theorem length_filterMap_eq_countP {α β : Type} (f : α → Option β) (l : List α) :
    (l.filterMap f).length = l.countP (fun a => (f a).isSome) := by
  induction l with
  | nil => simp
  | cons a l ih =>
    cases h : f a with
    | none => simp [List.filterMap_cons, h, List.countP_cons, ih]
    | some b => simp [List.filterMap_cons, h, List.countP_cons, ih]

theorem filterMap_eq_map_filter_isSome {α β : Type} (f : α → Option β) (d : β) (l : List α) :
    l.filterMap f = (l.filter (fun a => (f a).isSome)).map (fun a => (f a).getD d) := by
  induction l with
  | nil => simp
  | cons a l ih =>
    cases h : f a with
    | none => simp [List.filterMap_cons, h, List.filter_cons, ih]
    | some b => simp [List.filterMap_cons, h, List.filter_cons, ih]

theorem encodeParam_inline_of_le (p : RawParam)
    (h : paramByteSize p ≤ extendedParamSizeThreshold) :
    (encodeParam p).1.isInline = true ∧ (encodeParam p).2 = none := by
  cases p with
  | str s => simp [encodeParam, paramByteSize] at h ⊢; simp [h, QueryParam.isInline]
  | bytes data format =>
    simp [encodeParam, paramByteSize] at h ⊢
    cases format <;> simp [h, QueryParam.isInline]
  | stream chunks format byteLength =>
    simp [encodeParam, paramByteSize] at h ⊢
    cases format <;> simp [h, QueryParam.isInline]
  | nullParam => simp [encodeParam, QueryParam.isInline]

theorem encodeParam_extended_of_lt (p : RawParam)
    (h : extendedParamSizeThreshold < paramByteSize p) :
    (encodeParam p).1 = QueryParam.extended (paramFormat p) (paramByteSize p) ∧
    ∃ f, (encodeParam p).2 = some f := by
  cases p with
  | str s =>
    have hif : ¬ utf8ByteLength s ≤ extendedParamSizeThreshold := by
      simpa [paramByteSize] using Nat.not_le.mpr h
    simp [encodeParam, hif, paramFormat, paramByteSize]
  | bytes data format =>
    have hif : ¬ data.length ≤ extendedParamSizeThreshold := by
      simpa [paramByteSize] using Nat.not_le.mpr h
    cases format <;> simp [encodeParam, hif, paramFormat, paramByteSize]
  | stream chunks format byteLength =>
    have hif : ¬ byteLength ≤ extendedParamSizeThreshold := by
      simpa [paramByteSize] using Nat.not_le.mpr h
    cases format <;> simp [encodeParam, hif, paramFormat, paramByteSize]
  | nullParam => simp [paramByteSize, extendedParamSizeThreshold] at h

/-- C1: a parameter whose byte length (UTF-8 length for strings, byte count for
byte arrays, declared byteLength for bounded streams) is at most 1024 is
encoded inline with its value and produces no extra frame; one whose byte
length is strictly greater than 1024 is encoded as an extended descriptor
carrying its type and byte size together with exactly one extended parameter
frame; consequently, requestFrames returns 1 + (number of parameters exceeding
1024 bytes) frames. -/
theorem requestFrames_inline_threshold (kind : StatementKind) (sql : String)
    (params : List RawParam) :
    (requestFrames kind sql params).length
      = 1 + params.countP (fun p => decide (1024 < paramByteSize p)) ∧
    (∀ p : RawParam, paramByteSize p ≤ 1024 →
      (encodeParam p).1.isInline = true ∧ (encodeParam p).2 = none) ∧
    (∀ p : RawParam, 1024 < paramByteSize p →
      (encodeParam p).1 = QueryParam.extended (paramFormat p) (paramByteSize p) ∧
      ∃ f, (encodeParam p).2 = some f) ∧
    (∀ s : JsString, utf8ByteLength s ≤ 1024 →
      (encodeParam (RawParam.str s)).1
        = QueryParam.inline ParamFormat.text (some (InlineVal.fromString s))) := by
  have hthr : extendedParamSizeThreshold = 1024 := by decide
  refine ⟨?_, ?_, ?_, ?_⟩
  · have hfun : (fun p => ((encodeParam p).2).isSome)
        = (fun p => decide (1024 < paramByteSize p)) := by
      funext p
      rw [encodeParam_ext_isSome, hthr]
    simp only [requestFrames, List.length_cons, List.length_map]
    rw [length_filterMap_eq_countP, hfun]
    omega
  · intro p h
    exact encodeParam_inline_of_le p (by omega)
  · intro p h
    exact encodeParam_extended_of_lt p (by omega)
  · intro s h
    have := encodeParam_inline_of_le (RawParam.str s) (by simpa [paramByteSize, hthr] using h)
    simp only [encodeParam] at this ⊢
    have hle : utf8ByteLength s ≤ extendedParamSizeThreshold := by omega
    simp [hle]

/-- Closed instance of C1: a two-code-unit string is below the threshold, so it
is inlined and emits no extended frame. -/
theorem requestFrames_inline_threshold_witness :
    (encodeParam (RawParam.str [104, 105])).1.isInline = true ∧
    (encodeParam (RawParam.str [104, 105])).2 = none :=
  (requestFrames_inline_threshold StatementKind.query "SELECT 1" []).2.1
    (RawParam.str [104, 105]) (by decide)

/-- The parameters of the statement that yield an extended descriptor, in
parameter-list order. -/
def extendedParams (params : List RawParam) : List RawParam :=
  params.filter (fun p => decide (extendedParamSizeThreshold < paramByteSize p))

theorem encodeParam_fst_isExtended (p : RawParam) :
    (encodeParam p).1.isExtended = decide (extendedParamSizeThreshold < paramByteSize p) := by
  cases p with
  | str s =>
    by_cases h : utf8ByteLength s ≤ extendedParamSizeThreshold
    · simp [encodeParam, paramByteSize, h, Nat.not_lt.mpr h, QueryParam.isExtended]
    · simp [encodeParam, paramByteSize, h, Nat.lt_of_not_le h, QueryParam.isExtended]
  | bytes data format =>
    by_cases h : data.length ≤ extendedParamSizeThreshold
    · cases format <;>
        simp [encodeParam, paramByteSize, h, Nat.not_lt.mpr h, QueryParam.isExtended]
    · cases format <;>
        simp [encodeParam, paramByteSize, h, Nat.lt_of_not_le h, QueryParam.isExtended]
  | stream chunks format byteLength =>
    by_cases h : byteLength ≤ extendedParamSizeThreshold
    · cases format <;>
        simp [encodeParam, paramByteSize, h, Nat.not_lt.mpr h, QueryParam.isExtended]
    · cases format <;>
        simp [encodeParam, paramByteSize, h, Nat.lt_of_not_le h, QueryParam.isExtended]
  | nullParam =>
    simp [encodeParam, paramByteSize, extendedParamSizeThreshold, QueryParam.isExtended]

/-- C2: requestFrames returns the query descriptor first, followed by the
extended parameter frames; the i-th transmitted extended frame and the i-th
extended descriptor in the descriptor's parameter list both come from the i-th
parameter exceeding the threshold, in parameter-list order. -/
theorem requestFrames_ordering (kind : StatementKind) (sql : String)
    (params : List RawParam) :
    ∃ d : DescriptorFrame, d.kind = kind ∧ d.sql = sql ∧
      requestFrames kind sql params
        = RequestFrame.descriptor d
          :: (extendedParams params).map (fun p =>
                RequestFrame.extParam
                  (((encodeParam p).2).getD ⟨ParamFormat.text, ExtData.byteArray [] ParamFormat.text⟩)) ∧
      (d.parameters.getD []).filter QueryParam.isExtended
        = (extendedParams params).map (fun p => (encodeParam p).1) := by
  refine ⟨⟨kind, sql,
    if (params.map (fun p => (encodeParam p).1)).length > 0
    then some (params.map (fun p => (encodeParam p).1)) else none⟩, rfl, rfl, ?_, ?_⟩
  · simp only [requestFrames]
    congr 1
    rw [filterMap_eq_map_filter_isSome (fun p => (encodeParam p).2)
      ⟨ParamFormat.text, ExtData.byteArray [] ParamFormat.text⟩ params]
    rw [List.map_map]
    have hfun : (fun p => ((encodeParam p).2).isSome)
        = (fun p => decide (extendedParamSizeThreshold < paramByteSize p)) := by
      funext p; exact encodeParam_ext_isSome p
    rw [hfun]
    rfl
  · rcases params with _ | ⟨p, ps⟩
    · simp [extendedParams]
    · simp only [List.length_map, List.length_cons, Nat.zero_lt_succ, if_pos, gt_iff_lt,
        Option.getD_some]
      rw [List.filter_map]
      have hfun : (QueryParam.isExtended ∘ fun p => (encodeParam p).1)
          = (fun p => decide (extendedParamSizeThreshold < paramByteSize p)) := by
        funext q; exact encodeParam_fst_isExtended q
      rw [hfun]
      rfl

/-! ### exec and assertRowAffectedResult (src/api/client.ts lines 421-431, 457-463) -/

/-- The test of the regular expression /^\d+$/ used by assertRowAffectedResult:
true iff the string is nonempty and consists only of ASCII digits. -/
def jsIsDigitString (s : String) : Bool :=
  decide (s.length > 0) && s.toList.all (fun c => decide ('0' ≤ c) && decide (c ≤ '9'))

/-- Number.parseInt(s, 10) restricted to the all-digit strings accepted by
assertRowAffectedResult: the nonnegative decimal value. -/
def parseDecimalDigits (s : String) : Nat :=
  s.toList.foldl (fun acc c => acc * 10 + (c.toNat - '0'.toNat)) 0

/-- Embedding of assertRowAffectedResult (src/api/client.ts lines 457-463) on
the first iterator result of the exec response (none models a done iterator):
passes iff the row is present, has exactly one value, that value is truthy
(non-null and nonempty), and matches /^\d+$/. -/
def assertRowAffectedResult (x : Option (List (Option String))) : Bool :=
  match x with
  | none => false
  | some row =>
    decide (row.length = 1) &&
      (match row.head? with
       | some (some s) => !(s == "") && jsIsDigitString s
       | _ => false)

/-- The protocol-error message thrown by assertRowAffectedResult. -/
def execProtocolErrorMsg : String :=
  "Protocol error: missing rowsAffected value in exec response"

/-- Embedding of the exec result extraction (src/api/client.ts lines 421-431):
take the first row of the exec statement response, run
assertRowAffectedResult, and on success return Number.parseInt of the row's
single value; otherwise fail with the protocol error. -/
def execAffectedCount (rows : List (List (Option String))) : Except String Nat :=
  match rows.head? with
  | some (some s :: rest) =>
    if assertRowAffectedResult (some (some s :: rest)) then
      Except.ok (parseDecimalDigits s)
    else
      Except.error execProtocolErrorMsg
  | _ => Except.error execProtocolErrorMsg

/-- C3: exec returns the decimal integer parsed from the single value of the
first row, and that is the only success case: the call fails with the protocol
error whenever the first row is missing, does not have exactly one value, or
its value is not a nonnegative decimal integer string. -/
theorem execAffectedCount_ok_iff (rows : List (List (Option String))) :
    (∀ n : Nat, execAffectedCount rows = Except.ok n ↔
      ∃ s, rows.head? = some [some s] ∧ jsIsDigitString s = true ∧ n = parseDecimalDigits s) ∧
    ((∃ n, execAffectedCount rows = Except.ok n) ∨
      execAffectedCount rows = Except.error execProtocolErrorMsg) := by
  rcases h : rows.head? with _ | row
  · simp [execAffectedCount, h]
  · rcases row with _ | ⟨v, rest⟩
    · simp [execAffectedCount, h]
    · rcases v with _ | s
      · simp [execAffectedCount, h]
      · rcases rest with _ | ⟨w, ws⟩
        · by_cases hdig : jsIsDigitString s = true
          · have hne : s ≠ "" := by
              intro he
              rw [he] at hdig
              simp [jsIsDigitString] at hdig
            have hbeq : (s == "") = false := by
              simpa using hne
            have hassert : assertRowAffectedResult (some [some s]) = true := by
              simp [assertRowAffectedResult, hbeq, hdig]
            have hred : execAffectedCount rows = Except.ok (parseDecimalDigits s) := by
              simp only [execAffectedCount, h]
              rw [if_pos hassert]
            constructor
            · intro n
              rw [hred]
              constructor
              · intro hn
                injection hn with hn
                exact ⟨s, rfl, hdig, hn.symm⟩
              · rintro ⟨s', hs', hd', hn⟩
                have hss : s = s' := by simpa using hs'
                subst hss
                rw [hn]
            · exact Or.inl ⟨parseDecimalDigits s, hred⟩
          · have hfalse : jsIsDigitString s = false := by
              simpa using hdig
            have hassert : ¬ assertRowAffectedResult (some [some s]) = true := by
              simp [assertRowAffectedResult, hfalse]
            have hred : execAffectedCount rows = Except.error execProtocolErrorMsg := by
              simp only [execAffectedCount, h]
              rw [if_neg hassert]
            constructor
            · intro n
              rw [hred]
              constructor
              · intro hcontra
                simp at hcontra
              · rintro ⟨s', hs', hd', _⟩
                have hss : s = s' := by simpa using hs'
                subst hss
                rw [hfalse] at hd'
                simp at hd'
            · exact Or.inr hred
        · simp [execAffectedCount, h, assertRowAffectedResult]

/-! ### transaction (src/index.ts lines 291-304) -/

/-- The observable outcome of one transaction call: the exec statements issued
on the fresh session (in order), the settled result, and whether the session
was disposed. -/
structure TxResult (α : Type) where
  execs : List String
  result : Except String α
  disposed : Bool

/-- Embedding of transaction (src/index.ts lines 291-304).  A fresh session is
opened (with `using`, so it is disposed on every exit path).  The session's
control statements BEGIN / COMMIT / ROLLBACK may each fail, given by execErr;
the user callback outcome is cb.  The body starts exec BEGIN, awaits it
together with the callback, on success execs COMMIT and returns the callback
value; the catch path execs ROLLBACK and rethrows (the rollback's own failure,
if any, replaces the error). -/
def txRun {α : Type} (execErr : String → Option String) (cb : Except String α) :
    TxResult α :=
  match execErr "BEGIN" with
  | some e =>
    match execErr "ROLLBACK" with
    | none => ⟨["BEGIN", "ROLLBACK"], Except.error e, true⟩
    | some e2 => ⟨["BEGIN", "ROLLBACK"], Except.error e2, true⟩
  | none =>
    match cb with
    | Except.error e =>
      match execErr "ROLLBACK" with
      | none => ⟨["BEGIN", "ROLLBACK"], Except.error e, true⟩
      | some e2 => ⟨["BEGIN", "ROLLBACK"], Except.error e2, true⟩
    | Except.ok v =>
      match execErr "COMMIT" with
      | none => ⟨["BEGIN", "COMMIT"], Except.ok v, true⟩
      | some e =>
        match execErr "ROLLBACK" with
        | none => ⟨["BEGIN", "COMMIT", "ROLLBACK"], Except.error e, true⟩
        | some e2 => ⟨["BEGIN", "COMMIT", "ROLLBACK"], Except.error e2, true⟩

/-- C4: with the control statements succeeding, a transaction whose callback
returns normally execs BEGIN then COMMIT and resolves with the callback's
value, while a callback that throws leads to BEGIN then ROLLBACK and the
original callback error; the session is disposed on both paths. -/
theorem transaction_commit_rollback {α : Type} (execErr : String → Option String)
    (cb : Except String α)
    (hB : execErr "BEGIN" = none) (hC : execErr "COMMIT" = none)
    (hR : execErr "ROLLBACK" = none) :
    (∀ v, cb = Except.ok v →
      txRun execErr cb = ⟨["BEGIN", "COMMIT"], Except.ok v, true⟩) ∧
    (∀ e, cb = Except.error e →
      txRun execErr cb = ⟨["BEGIN", "ROLLBACK"], Except.error e, true⟩) := by
  constructor
  · intro v hv
    subst hv
    simp [txRun, hB, hC]
  · intro e he
    subst he
    simp [txRun, hB, hR]

/-- Closed instance of C4: with reliable control statements, a successful
callback commits and a throwing callback rolls back. -/
theorem transaction_commit_rollback_witness :
    txRun (fun _ => none) (Except.ok (42 : Nat))
      = ⟨["BEGIN", "COMMIT"], Except.ok 42, true⟩ ∧
    txRun (fun _ => none) (Except.error "boom" : Except String Nat)
      = ⟨["BEGIN", "ROLLBACK"], Except.error "boom", true⟩ :=
  ⟨(transaction_commit_rollback (fun _ => none) (Except.ok 42) rfl rfl rfl).1 42 rfl,
   (transaction_commit_rollback (fun _ => none) (Except.error "boom") rfl rfl rfl).2 "boom" rfl⟩

/-! ### toCollectableIterator (src/common/types.ts lines 143-193) -/

/-- State of a collectable iterator over a pure source: the elements the
underlying iterator has not yet produced, and the collected flag. -/
structure CollectableState (α : Type) where
  remaining : List α
  collected : Bool
deriving DecidableEq, Repr

/-- Embedding of the wrapper's next() (src/common/types.ts lines 151-160): when
the collected flag is set, report done; otherwise pull from the underlying
iterator, reporting done (without touching the flag) when it is exhausted, and
the transformed value otherwise. -/
def collectableNext {α β : Type} (transform : α → β) (s : CollectableState α) :
    Option β × CollectableState α :=
  if s.collected then (none, s)
  else
    match s.remaining with
    | [] => (none, s)
    | x :: xs => (some (transform x), ⟨xs, false⟩)

/-- Embedding of collect() (src/common/types.ts lines 162-173): when the
collected flag is set, return the empty array; otherwise set the flag and
drain the underlying iterator, transforming each item. -/
def collectableCollect {α β : Type} (transform : α → β) (s : CollectableState α) :
    List β × CollectableState α :=
  if s.collected then ([], s)
  else (s.remaining.map transform, ⟨[], true⟩)

/-- Applying next() a number of times, keeping only the state. -/
def collectableNextN {α β : Type} (transform : α → β) : Nat → CollectableState α → CollectableState α
  | 0, s => s
  | n + 1, s => collectableNextN transform n (collectableNext transform s).2

/-- C9: collect() after the iterator was fully drained by next() returns the
empty array; a second collect() after a first collect() returns the empty
array; and next() after collect() reports end-of-stream. -/
theorem collectable_restart_once {α β : Type} (transform : α → β) :
    (∀ xs : List α,
      collectableNextN transform xs.length ⟨xs, false⟩ = ⟨[], false⟩ ∧
      (collectableCollect transform
        (collectableNextN transform xs.length ⟨xs, false⟩)).1 = []) ∧
    (∀ s : CollectableState α,
      (collectableCollect transform (collectableCollect transform s).2).1 = []) ∧
    (∀ s : CollectableState α,
      (collectableNext transform (collectableCollect transform s).2).1 = none) := by
  refine ⟨?_, ?_, ?_⟩
  · intro xs
    have hdrain : ∀ ys : List α,
        collectableNextN transform ys.length ⟨ys, false⟩ = ⟨[], false⟩ := by
      intro ys
      induction ys with
      | nil => rfl
      | cons y ys ih =>
        simpa [collectableNextN, collectableNext] using ih
    exact ⟨hdrain xs, by rw [hdrain xs]; rfl⟩
  · intro s
    rcases s with ⟨xs, _ | _⟩ <;> simp [collectableCollect]
  · intro s
    rcases s with ⟨xs, _ | _⟩ <;> simp [collectableCollect, collectableNext]

/-! ### Default value parsers (src/api/client.ts lines 268-299) -/

/-- The JavaScript values produced by the default parser table.  The four
primitive conversions applied to non-null strings (Number.parseInt, BigInt,
Number.parseFloat, JSON.parse) are kept symbolic. -/
inductive JsValue
  | vnull
  | vbool (b : Bool)
  | vstr (s : String)
  | parsedInt (s : String)
  | parsedBigInt (s : String)
  | parsedFloat (s : String)
  | parsedJson (s : String)
deriving DecidableEq, Repr

/-- passThrough from src/api/client.ts line 268: the identity on the raw
nullable value. -/
def passThrough (v : Option String) : JsValue :=
  match v with
  | none => JsValue.vnull
  | some s => JsValue.vstr s

/-- nullPassThrough from src/api/client.ts lines 270-273: null maps to null,
everything else goes through the wrapped conversion. -/
def nullPassThrough (fn : String → JsValue) : Option String → JsValue
  | none => JsValue.vnull
  | some s => fn s

/-- Embedding of DEFAULT_PARSERS (src/api/client.ts lines 278-299): the table
of (oid, parse) pairs in source order.  The boolean parser at oid 16 is the
bare comparison (value === "t") and is not wrapped in nullPassThrough. -/
def defaultParsers : List (Nat × (Option String → JsValue)) :=
  [ (16, fun v => JsValue.vbool (v == some "t")),
    (21, nullPassThrough (fun s => JsValue.parsedInt s)),
    (23, nullPassThrough (fun s => JsValue.parsedInt s)),
    (20, nullPassThrough (fun s => JsValue.parsedBigInt s)),
    (700, nullPassThrough (fun s => JsValue.parsedFloat s)),
    (701, nullPassThrough (fun s => JsValue.parsedFloat s)),
    (25, passThrough),
    (1043, passThrough),
    (114, nullPassThrough (fun s => JsValue.parsedJson s)),
    (3802, nullPassThrough (fun s => JsValue.parsedJson s)) ]

/-- C10: in the default parser table, the oid 16 (boolean) parser maps a NULL
value to the JavaScript value false, while every other default parser maps
NULL to null. -/
theorem defaultParsers_null_behaviour :
    defaultParsers.map (fun p => p.1) = [16, 21, 23, 20, 700, 701, 25, 1043, 114, 3802] ∧
    defaultParsers.map (fun p => p.2 none)
      = [JsValue.vbool false, JsValue.vnull, JsValue.vnull, JsValue.vnull, JsValue.vnull,
         JsValue.vnull, JsValue.vnull, JsValue.vnull, JsValue.vnull, JsValue.vnull] :=
  ⟨rfl, rfl⟩

/-! ### parseConnectionString (src/api/client.ts lines 240-266) -/

/-- The components of a parsed WHATWG URL, as read by parseConnectionString
(protocol includes the trailing colon; port and pathname are the raw URL
components, pathname with its leading slash). -/
structure JsUrl where
  protocol : String
  username : String
  password : String
  hostname : String
  port : String
  pathname : String
deriving DecidableEq, Repr

/-- TransportConfig from src/transport/shared.ts, restricted to the fields
parseConnectionString produces. -/
structure TransportConfig where
  endpoint : String
  username : String
  password : String
  database : Option String
deriving DecidableEq, Repr

/-- Embedding of parseConnectionString (src/api/client.ts lines 240-266):
rejects any scheme other than postgres:/postgresql:, takes username, password
and hostname from the URL, derives the database from the path without its
leading slash (empty becomes undefined), rejects empty username or password,
and builds the endpoint from the hostname with the scheme fixed to http and
the port fixed to the literal "54320". -/
def parseConnectionString (url : JsUrl) : Except String TransportConfig :=
  if url.protocol ≠ "postgres:" ∧ url.protocol ≠ "postgresql:" then
    Except.error ("Invalid connection string protocol: " ++ url.protocol)
  else
    let database := if url.pathname.drop 1 = "" then none else some (url.pathname.drop 1)
    if url.username = "" ∨ url.password = "" then
      Except.error "Connection string must include username and password"
    else
      Except.ok
        ⟨"http://" ++ url.hostname ++ ":" ++ "54320", url.username, url.password, database⟩

/-- C8 counterexample: the transport endpoint does not derive its port (or
scheme) from the connection string — two connection strings that differ only
in the port parse to the same transport config, whose endpoint carries the
fixed scheme http and the fixed port 54320. -/
theorem parseConnectionString_port_ignored :
    parseConnectionString ⟨"postgres:", "user", "pass", "example.com", "5432", "/mydb"⟩
      = parseConnectionString ⟨"postgres:", "user", "pass", "example.com", "6543", "/mydb"⟩ ∧
    parseConnectionString ⟨"postgres:", "user", "pass", "example.com", "5432", "/mydb"⟩
      = Except.ok ⟨"http://example.com:54320", "user", "pass", some "mydb"⟩ ∧
    ("5432" : String) ≠ "6543" := by
  refine ⟨rfl, rfl, by decide⟩

/-- C8 amended: parseConnectionString accepts exactly the postgres: and
postgresql: schemes with nonempty username and password, failing with a
configuration error otherwise; on success the endpoint is the fixed-scheme,
fixed-port URL http://hostname:54320 (only the host comes from the connection
string), and the optional path segment (path without the leading slash)
becomes the database name. -/
theorem parseConnectionString_spec (url : JsUrl) :
    ((∃ cfg, parseConnectionString url = Except.ok cfg) ↔
      ((url.protocol = "postgres:" ∨ url.protocol = "postgresql:") ∧
        url.username ≠ "" ∧ url.password ≠ "")) ∧
    (∀ cfg, parseConnectionString url = Except.ok cfg →
      cfg.endpoint = "http://" ++ url.hostname ++ ":" ++ "54320" ∧
      cfg.username = url.username ∧
      cfg.password = url.password ∧
      cfg.database
        = (if url.pathname.drop 1 = "" then none else some (url.pathname.drop 1))) := by
  by_cases hp : url.protocol ≠ "postgres:" ∧ url.protocol ≠ "postgresql:"
  · constructor
    · simp only [parseConnectionString, if_pos hp]
      constructor
      · rintro ⟨cfg, hcfg⟩
        simp at hcfg
      · rintro ⟨hor, -, -⟩
        rcases hp with ⟨h1, h2⟩
        rcases hor with h | h
        · exact absurd h h1
        · exact absurd h h2
    · intro cfg hcfg
      simp only [parseConnectionString, if_pos hp] at hcfg
      simp at hcfg
  · by_cases hup : url.username = "" ∨ url.password = ""
    · constructor
      · simp only [parseConnectionString, if_neg hp, if_pos hup]
        constructor
        · rintro ⟨cfg, hcfg⟩
          simp at hcfg
        · rintro ⟨-, hu, hpw⟩
          rcases hup with h | h
          · exact absurd h hu
          · exact absurd h hpw
      · intro cfg hcfg
        simp only [parseConnectionString, if_neg hp, if_pos hup] at hcfg
        simp at hcfg
    · constructor
      · simp only [parseConnectionString, if_neg hp, if_neg hup]
        constructor
        · intro _
          rcases not_and_or.mp hp with h | h
          · exact ⟨Or.inl (not_not.mp h), not_or.mp hup⟩
          · exact ⟨Or.inr (not_not.mp h), not_or.mp hup⟩
        · intro _
          exact ⟨_, rfl⟩
      · intro cfg hcfg
        simp only [parseConnectionString, if_neg hp, if_neg hup] at hcfg
        injection hcfg with hcfg
        subst hcfg
        exact ⟨rfl, rfl, rfl, rfl⟩

/-- Closed instance of the amended C8 at a concrete connection string. -/
theorem parseConnectionString_spec_witness :
    (TransportConfig.mk "http://h:54320" "u" "p" (some "db")).endpoint
      = "http://" ++ "h" ++ ":" ++ "54320" ∧
    (TransportConfig.mk "http://h:54320" "u" "p" (some "db")).username = "u" ∧
    (TransportConfig.mk "http://h:54320" "u" "p" (some "db")).password = "p" ∧
    (TransportConfig.mk "http://h:54320" "u" "p" (some "db")).database
      = (if ("/db" : String).drop 1 = "" then none else some (("/db" : String).drop 1)) :=
  (parseConnectionString_spec ⟨"postgres:", "u", "p", "h", "5432", "/db"⟩).2
    (TransportConfig.mk "http://h:54320" "u" "p" (some "db")) rfl

/-! ### JSON values and the inbound frame type guards (src/transport/frames.ts) -/

/-- A parsed JSON value.  Objects are ordered field lists; JavaScript property
access is modelled by jsonField, returning none for an absent property. -/
inductive Json
  | null
  | bool (b : Bool)
  | num (n : Int)
  | str (s : String)
  | arr (elems : List Json)
  | obj (fields : List (String × Json))

/-- JavaScript property access on a parsed JSON value: the value of a property
of an object, or undefined (none) when absent or when the value is not an
object. -/
def jsonField : Json → String → Option Json
  | .obj fields, key => fields.lookup key
  | _, _ => none

/-- isDataRowDescription (src/transport/frames.ts lines 95-97): a non-null
object whose columns property is an array. -/
def isDataRowDescription (frame : Json) : Bool :=
  match jsonField frame "columns" with
  | some (.arr _) => true
  | _ => false

/-- isDataRow (src/transport/frames.ts lines 99-101): a non-null object whose
values property is an array. -/
def isDataRow (frame : Json) : Bool :=
  match jsonField frame "values" with
  | some (.arr _) => true
  | _ => false

/-- isCommandComplete (src/transport/frames.ts lines 103-105): a non-null
object whose complete property is exactly true. -/
def isCommandComplete (frame : Json) : Bool :=
  match jsonField frame "complete" with
  | some (.bool true) => true
  | _ => false

/-- isErrorFrame (src/transport/frames.ts lines 107-116): a non-null object
whose error property is a non-null object with a string message property. -/
def isErrorFrame (frame : Json) : Bool :=
  match jsonField frame "error" with
  | some (.obj fields) =>
    match fields.lookup "message" with
    | some (.str _) => true
    | _ => false
  | _ => false

/-! ### Inbound column mapping (src/transport/ndjson.ts and
src/transport/query-queue.ts) -/

/-- A column record as built by the transports from a wire column object; a
field is none when the JavaScript property read produced undefined. -/
structure JsColumn where
  name : Option Json
  oid : Option Json

/-- The column mapping of the HTTP NDJSON reader (src/transport/ndjson.ts
lines 44-58): for a frame recognized by isDataRowDescription, each entry of
frame.columns is mapped to a column reading the name and oid properties. -/
def ndjsonMapColumns (frame : Json) : Option (List JsColumn) :=
  if isDataRowDescription frame then
    match jsonField frame "columns" with
    | some (.arr cols) =>
      some (cols.map (fun col => ⟨jsonField col "name", jsonField col "oid"⟩))
    | _ => none
  else none

/-- The column mapping of the WebSocket query queue (rowDescription in
src/transport/query-queue.ts lines 88-100): each entry of descr.columns is
mapped to a column reading the name and typeOid properties. -/
def wsMapColumns (frame : Json) : Option (List JsColumn) :=
  if isDataRowDescription frame then
    match jsonField frame "columns" with
    | some (.arr cols) =>
      some (cols.map (fun col => ⟨jsonField col "name", jsonField col "typeOid"⟩))
    | _ => none
  else none

/-- The DataRowDescription frame served by the repository's own HTTP tests
(tests/transport/http.test.ts): one column named result with typeOid 23. -/
def wireDescriptionFrame : Json :=
  Json.obj [("columns", Json.arr [Json.obj [("name", Json.str "result"), ("typeOid", Json.num 23)]])]

/-- C7 (code bug): on the wire frame with columns [(name "result", typeOid 23)]
— the shape the repository's HTTP tests serve and the WebSocket path consumes —
the NDJSON reader of the HTTP transport produces a column whose oid is
undefined, because it reads the absent oid property instead of typeOid, while
the WebSocket query-queue mapping produces oid 23 from the same frame. -/
theorem ndjson_column_oid_undefined :
    ndjsonMapColumns wireDescriptionFrame
      = some [⟨some (Json.str "result"), none⟩] ∧
    wsMapColumns wireDescriptionFrame
      = some [⟨some (Json.str "result"), some (Json.num 23)⟩] :=
  ⟨rfl, rfl⟩

/-! ### Query queue (src/transport/query-queue.ts lines 145-201) -/

/-- The inbound frame URNs from FRAME_URNS in src/transport/shared.ts. -/
def dataRowDescriptionUrn : String := "urn:prisma:query:result:description"

/-- The DataRow frame URN from FRAME_URNS in src/transport/shared.ts. -/
def dataRowUrn : String := "urn:prisma:query:result:datarow"

/-- The CommandComplete frame URN from FRAME_URNS in src/transport/shared.ts. -/
def commandCompleteUrn : String := "urn:prisma:query:result:complete"

/-- The ErrorFrame URN from FRAME_URNS in src/transport/shared.ts. -/
def errorUrn : String := "urn:prisma:query:result:error"

/-- The method of the head running query invoked by processFrame. -/
inductive FrameAction
  | rowDescription
  | dataRow
  | complete
  | error
deriving DecidableEq, Repr

/-- What one processFrame call did to the queue. -/
inductive QueueEffect
  | dropped
  | dispatched (target : Nat) (action : FrameAction)
  | abortedAll (targets : List Nat)
deriving DecidableEq, Repr

/-- Embedding of processFrame (src/transport/query-queue.ts lines 159-182) on
the queue of running queries, identified by ids: an empty queue drops the
frame; otherwise the frame is matched against the four URN/type-guard pairs
and dispatched to the query at the head; CommandComplete and ErrorFrame also
shift the head off the queue; any other frame aborts all queued queries and
clears the queue. -/
def processFrame (urn : String) (payload : Json) (queue : List Nat) :
    List Nat × QueueEffect :=
  match queue with
  | [] => ([], .dropped)
  | currentQuery :: rest =>
    if urn = dataRowDescriptionUrn ∧ isDataRowDescription payload then
      (currentQuery :: rest, .dispatched currentQuery .rowDescription)
    else if urn = dataRowUrn ∧ isDataRow payload then
      (currentQuery :: rest, .dispatched currentQuery .dataRow)
    else if urn = commandCompleteUrn ∧ isCommandComplete payload then
      (rest, .dispatched currentQuery .complete)
    else if urn = errorUrn ∧ isErrorFrame payload then
      (rest, .dispatched currentQuery .error)
    else
      ([], .abortedAll (currentQuery :: rest))

/-- Embedding of enqueueNew (src/transport/query-queue.ts lines 149-157): the
fresh running query is pushed at the tail of the queue. -/
def enqueueNew (queue : List Nat) (id : Nat) : List Nat :=
  queue ++ [id]

/-- A well-formed inbound frame, per the spec's data model: one of the four
URN/payload-shape pairs. -/
def wellFormedFrame (urn : String) (payload : Json) : Prop :=
  (urn = dataRowDescriptionUrn ∧ isDataRowDescription payload = true) ∨
  (urn = dataRowUrn ∧ isDataRow payload = true) ∨
  (urn = commandCompleteUrn ∧ isCommandComplete payload = true) ∨
  (urn = errorUrn ∧ isErrorFrame payload = true)

/-- The two URNs whose frames terminate the head query. -/
def isTerminalUrn (urn : String) : Bool :=
  urn == commandCompleteUrn || urn == errorUrn

/-- C5: every well-formed inbound frame is dispatched to the query at the head
of the FIFO queue; a CommandComplete or ErrorFrame pops exactly the head and
nothing else, the other frames leave the queue unchanged, so a query not
otherwise queued is gone for good once popped; and newly enqueued queries are
appended at the tail. -/
theorem queryQueue_fifo (urn : String) (payload : Json) (q : Nat) (rest : List Nat)
    (h : wellFormedFrame urn payload) :
    (∃ a, (processFrame urn payload (q :: rest)).2 = QueueEffect.dispatched q a) ∧
    (processFrame urn payload (q :: rest)).1
      = (if isTerminalUrn urn then rest else q :: rest) ∧
    (isTerminalUrn urn = true → q ∉ rest → q ∉ (processFrame urn payload (q :: rest)).1) ∧
    (∀ (queue : List Nat) (id : Nat), enqueueNew queue id = queue ++ [id]) := by
  have hd1 : dataRowUrn ≠ dataRowDescriptionUrn := by decide
  have hd2 : commandCompleteUrn ≠ dataRowDescriptionUrn := by decide
  have hd3 : commandCompleteUrn ≠ dataRowUrn := by decide
  have hd4 : errorUrn ≠ dataRowDescriptionUrn := by decide
  have hd5 : errorUrn ≠ dataRowUrn := by decide
  have hd6 : errorUrn ≠ commandCompleteUrn := by decide
  rcases h with ⟨hu, hp⟩ | ⟨hu, hp⟩ | ⟨hu, hp⟩ | ⟨hu, hp⟩ <;> subst hu
  · refine ⟨⟨FrameAction.rowDescription, ?_⟩, ?_, ?_, fun _ _ => rfl⟩ <;>
      simp [processFrame, hp, isTerminalUrn, hd2.symm, hd4.symm]
  · refine ⟨⟨FrameAction.dataRow, ?_⟩, ?_, ?_, fun _ _ => rfl⟩ <;>
      simp [processFrame, hp, isTerminalUrn, hd1, hd3.symm, hd5.symm]
  · refine ⟨⟨FrameAction.complete, ?_⟩, ?_, ?_, fun _ _ => rfl⟩ <;>
      simp [processFrame, hp, isTerminalUrn, hd2, hd3]
  · refine ⟨⟨FrameAction.error, ?_⟩, ?_, ?_, fun _ _ => rfl⟩ <;>
      simp [processFrame, hp, isTerminalUrn, hd4, hd5, hd6]

/-- Closed instance of C5: a CommandComplete frame on the queue [7, 8] is
dispatched to query 7 and pops it. -/
theorem queryQueue_fifo_witness :
    (∃ a, (processFrame commandCompleteUrn (Json.obj [("complete", Json.bool true)]) [7, 8]).2
        = QueueEffect.dispatched 7 a) ∧
    (processFrame commandCompleteUrn (Json.obj [("complete", Json.bool true)]) [7, 8]).1
      = (if isTerminalUrn commandCompleteUrn then [8] else 7 :: [8]) ∧
    (isTerminalUrn commandCompleteUrn = true → 7 ∉ [8] →
      7 ∉ (processFrame commandCompleteUrn (Json.obj [("complete", Json.bool true)]) [7, 8]).1) ∧
    (∀ (queue : List Nat) (id : Nat), enqueueNew queue id = queue ++ [id]) :=
  queryQueue_fifo commandCompleteUrn (Json.obj [("complete", Json.bool true)]) 7 [8]
    (Or.inr (Or.inr (Or.inl ⟨rfl, rfl⟩)))

/-! ### WebSocket close handling (src/transport/shims.ts lines 229-242) -/

/-- The settle state of the authentication deferred behind connect(): still
pending, resolved with the connection object, or rejected with a
WebSocketError (message, closure code, closure reason). -/
inductive WsDeferred
  | pending
  | resolvedConn
  | rejected (message : String) (closureCode : Option Nat) (closureReason : Option String)
deriving DecidableEq, Repr

/-- Resolving a promise settles it only if it is still pending. -/
def deferredResolve : WsDeferred → WsDeferred
  | .pending => .resolvedConn
  | s => s

/-- Rejecting a promise settles it only if it is still pending. -/
def deferredReject (message : String) (code : Option Nat) (reason : Option String) :
    WsDeferred → WsDeferred
  | .pending => .rejected message code reason
  | s => s

/-- The WebSocketError payload carried to aborted queries. -/
structure WsError where
  message : String
  closureCode : Option Nat
  closureReason : Option String
deriving DecidableEq, Repr

/-- Embedding of the ws.onclose handler (src/transport/shims.ts lines
229-242): it first calls authDeferred.resolve(conn), builds the
WebSocketError from the close event's code and reason, then either calls
authDeferred.reject(err) when the query queue is empty, or aborts all queued
queries with err.  Returns the auth deferred's new state, the new queue, and
the per-query abort errors (none when no abort happened). -/
def wsOnClose (code : Nat) (reason : String) (auth : WsDeferred) (queue : List Nat) :
    WsDeferred × List Nat × Option (List (Nat × WsError)) :=
  let auth1 := deferredResolve auth
  let err : WsError := ⟨"WebSocket connection closed", some code, some reason⟩
  if queue.isEmpty then
    (deferredReject err.message err.closureCode err.closureReason auth1, queue, none)
  else
    (auth1, [], some (queue.map (fun q => (q, err))))

/-- C6 (code bug): when the close event (code 1006, reason "Abnormal closure")
fires while connect() is still pending and no queries are queued, the handler
resolves the auth deferred with the connection object before it reaches the
reject call, so the pending connect() promise ends resolved rather than
rejected with the WebSocketError.  With queries queued, all of them are
aborted with the close error carrying the code and reason, as claimed. -/
theorem wsOnClose_resolves_pending_connect :
    wsOnClose 1006 "Abnormal closure" WsDeferred.pending []
      = (WsDeferred.resolvedConn, [], none) ∧
    wsOnClose 1006 "Abnormal closure" WsDeferred.pending [4, 5]
      = (WsDeferred.resolvedConn, [],
          some [(4, ⟨"WebSocket connection closed", some 1006, some "Abnormal closure"⟩),
                (5, ⟨"WebSocket connection closed", some 1006, some "Abnormal closure"⟩)]) :=
  ⟨rfl, rfl⟩

end PpgClient
